import Mathlib

/-!
Shallow embedding of the DocHelperBE document-processing backend
(src/controllers/pdfOperations.js, src/middleware/upload.js, src/utils.js).

Filesystem effects are made explicit: every handler is embedded as a pure
function from its request data (uploaded files, form fields, a timestamp)
to an outcome record that lists the HTTP status, the files unlinked before
the response, the artifacts written, and the response payload fields the
claims talk about.  External collaborators (pdf-lib, sharp, zlib) are
embedded through the request data itself: each uploaded file carries the
result the collaborator would produce on its bytes (for example
`content : Option (List Nat)` is the page list `PDFDocument.load` yields,
`none` when loading throws).
-/

namespace DocHelper

/-! ## Character-list string utilities

JavaScript's `String.prototype.includes`, `startsWith`, `endsWith` and
`toLowerCase` (for the ASCII keywords the code compares against) are
embedded as structurally recursive functions on `List Char` so that they
evaluate inside the kernel. -/

/-- Test whether the first list is a leading segment of the second. -/
def listLeads : List Char → List Char → Bool
  | [], _ => true
  | _ :: _, [] => false
  | a :: as, b :: bs => a == b && listLeads as bs

/-- Test whether `pat` occurs as a contiguous sublist. -/
def listHasSub (pat : List Char) : List Char → Bool
  | [] => listLeads pat []
  | c :: rest => listLeads pat (c :: rest) || listHasSub pat rest

/-- Embedding of JavaScript `s.includes(pat)` (used for `mimetype.includes('pdf')`). -/
def strIncludes (pat s : String) : Bool := listHasSub pat.data s.data

/-- Embedding of JavaScript `s.startsWith(pat)` (used for `mimetype.startsWith('image/')`). -/
def strLeads (pat s : String) : Bool := listLeads pat.data s.data

/-- Embedding of JavaScript `s.endsWith(pat)` (used for `file.endsWith('.pdf')`). -/
def strEnds (pat s : String) : Bool := listLeads pat.data.reverse s.data.reverse

/-- ASCII lowercase of one character, as `String.prototype.toLowerCase`
acts on the ASCII keywords (`a4`, `letter`, `landscape`, ...) compared in the code. -/
def lowChar (c : Char) : Char :=
  if 65 ≤ c.toNat ∧ c.toNat ≤ 90 then Char.ofNat (c.toNat + 32) else c

/-- Embedding of JavaScript `s.toLowerCase()` restricted to ASCII data. -/
def lowStr (s : String) : String := ⟨s.data.map lowChar⟩

/-! ## Node `path` module on POSIX components

The controller manipulates paths with `path.normalize`, `path.join`,
`path.basename`, `path.isAbsolute` and `path.resolve`.  A path is embedded
as an absolute/relative flag plus its list of components; `..` and `.`
segments are resolved exactly as Node's POSIX `path.normalize` does
(leading `..` of a relative path is kept, `..` at the root of an absolute
path is dropped). -/

structure NodePath where
  absolute : Bool
  comps : List String
  deriving DecidableEq

/-- Component resolution behind `path.normalize`: `acc` holds already
emitted components in reverse. -/
def normAux (isAbs : Bool) : List String → List String → List String
  | acc, [] => acc.reverse
  | acc, c :: rest =>
    if c = "" ∨ c = "." then normAux isAbs acc rest
    else if c = ".." then
      match acc with
      | top :: acctl =>
        if top = ".." then normAux isAbs (".." :: top :: acctl) rest
        else normAux isAbs acctl rest
      | [] => if isAbs then normAux isAbs [] rest else normAux isAbs [".."] rest
    else normAux isAbs (c :: acc) rest

/-- Embedding of Node `path.normalize`. -/
def normalizePath (p : NodePath) : NodePath :=
  ⟨p.absolute, normAux p.absolute [] p.comps⟩

/-- Embedding of Node `path.join a b` (concatenate, then normalize). -/
def joinPath (a b : NodePath) : NodePath :=
  normalizePath ⟨a.absolute, a.comps ++ b.comps⟩

/-- Embedding of Node `path.basename`: the last nonempty component. -/
def basenameP (p : NodePath) : String :=
  ((p.comps.filter (fun c => c ≠ "")).getLastD "")

/-- Specification-side notion of a path lying inside the store root:
after normalization it is absolute and extends the root directory. -/
def insideRoot (root p : NodePath) : Bool :=
  root.absolute && p.absolute && root.comps.isPrefixOf (normalizePath p).comps

/-! ## Download resolver (downloadFile, src/controllers/pdfOperations.js:310-378) -/

/-- Path resolution of `downloadFile`: absolute references are normalized
and kept when they sit under the uploads root (the code tests this with
`absolutePath.startsWith(uploadsDir)`, embedded here as a component-level
root check), otherwise the basename is joined to the root; relative
references are joined to the root directly, with no traversal check. -/
def downloadResolve (root fp : NodePath) : NodePath :=
  if fp.absolute then
    let n := normalizePath fp
    if root.comps.isPrefixOf n.comps then n
    else joinPath root ⟨false, [basenameP fp]⟩
  else joinPath root fp

/-- Full serve decision of `downloadFile`: try the resolved path; when it
is not readable, rescan the root directory listing for an entry equal to
the reference basename and retry; otherwise respond not-found (`none`).
`readable` is the set of files `fsp.access` reports readable, `listing`
the entries of `fsp.readdir(uploadDir)`. -/
def servedFile (root : NodePath) (readable : NodePath → Bool)
    (listing : List String) (fp : NodePath) : Option NodePath :=
  let a := downloadResolve root fp
  if readable a then some a
  else
    let b := basenameP fp
    let a2 := if listing.contains b then joinPath root ⟨false, [b]⟩ else a
    if readable a2 then some a2 else none

/-! ## Upload intake naming (src/middleware/upload.js) -/

/-- Node `path.extname` on a basename: the suffix starting at the last
dot, empty for dotless names and for a leading-dot name like `.bashrc`. -/
def extRevAux : List Char → List Char → Option (List Char)
  | _, [] => none
  | acc, c :: rest =>
    if c = '.' then (if rest = [] then none else some ('.' :: acc))
    else extRevAux (c :: acc) rest

/-- Embedding of Node `path.extname`. -/
def extname (s : String) : String :=
  match extRevAux [] s.data.reverse with
  | none => ""
  | some l => ⟨l⟩

/-- Multer storage filename from upload.js:
`file.fieldname + '-' + Date.now() + path.extname(file.originalname)`. -/
def storageFilename (fieldname : String) (now : Nat) (originalname : String) : String :=
  fieldname ++ "-" ++ toString now ++ extname originalname

/-- Merge output artifact name: backtick-template `merged-(Date.now()).pdf`. -/
def mergedName (now : Nat) : String := "merged-" ++ toString now ++ ".pdf"

/-! ## Listing handler (listMergedPDFs, src/controllers/pdfOperations.js:16-46) -/

/-- Result of a JavaScript expression: a value or a thrown exception. -/
inductive Js (α : Type) where
  | ok (a : α)
  | thrown (msg : String)
  deriving DecidableEq

/-- The handler runs `await fs.readdir(uploadDir)` where `fs = require('fs')`
is the callback API, not `fs.promises`: Node throws
`TypeError [ERR_INVALID_CALLBACK]` synchronously when the callback argument
is missing, whatever the directory contains. -/
def fsReaddirAwaited (_dirFiles : List String) : Js (List String) :=
  .thrown "Callback must be a function"

/-- Outcome of the listing endpoint: HTTP status plus the array of
(name, url) entries of the JSON body. -/
structure ListOutcome where
  status : Nat
  entries : List (String × String)
  deriving DecidableEq

/-- Embedding of `listMergedPDFs`: the try block awaits the callback-style
`fs.readdir`; its synchronous throw lands in the catch, which responds 500.
The `.ok` branch carries the intended filter
(`file.endsWith('.pdf') && file.startsWith('merged-')`). -/
def listMergedPDFs (dirFiles : List String) : ListOutcome :=
  match fsReaddirAwaited dirFiles with
  | .thrown _ => ⟨500, []⟩
  | .ok files =>
    ⟨200, (files.filter (fun f => strEnds ".pdf" f && strLeads "merged-" f)).map
      (fun f => (f, "/uploads/" ++ f))⟩

/-! ## Uploaded files and order resolution -/

/-- One multer-uploaded file as the handlers see it, together with what the
external libraries produce from its bytes: `content` is the page list that
`PDFDocument.load` returns (`none` when loading throws); `imgMeta` is the
(width, height) that `sharp(...).metadata()` returns (`none` when sharp
throws, line 732); `embedOk` is whether `pdfDoc.image` succeeds on this
file (line 766 — PDFKit embeds only JPEG and PNG, so a sharp-readable
webp/gif/tiff upload has `embedOk = false`).  The embed step is reached
only after the metadata step succeeded, so `embedOk` matters only when
`imgMeta` is `some`. -/
structure UploadedFile where
  path : String
  originalname : String
  mimetype : String
  content : Option (List Nat)
  imgMeta : Option (Nat × Nat)
  embedOk : Bool
  deriving DecidableEq

/-- Order-index collection of mergePDFs (lines 65-73) and imageToPDF
(lines 659-667): the i-th arrived file is paired with
`parseInt(req.body['order_' + i])`, falling back to the arrival index i
when that is NaN.  `body i` is the parsed integer (`none` for NaN). -/
def resolveOrdersAux (body : Nat → Option Int) : Nat → List UploadedFile → List (UploadedFile × Int)
  | _, [] => []
  | i, f :: fs => (f, (body i).getD i) :: resolveOrdersAux body (i + 1) fs

/-- Pair every file with its resolved order index. -/
def resolveOrders (files : List UploadedFile) (body : Nat → Option Int) : List (UploadedFile × Int) :=
  resolveOrdersAux body 0 files

/-- Stable insertion of a keyed file (same placement as
`List.orderedInsert` on the second projection). -/
def insertByKey (x : UploadedFile × Int) : List (UploadedFile × Int) → List (UploadedFile × Int)
  | [] => [x]
  | y :: ys => if x.2 ≤ y.2 then x :: y :: ys else y :: insertByKey x ys

/-- Stable sort by resolved order index.  The code calls
`orderedFiles.sort((a, b) => a.order - b.order)`; ECMAScript 2019 requires
`Array.prototype.sort` to be stable, and a stable ascending sort is
uniquely determined, so insertion sort is an exact embedding. -/
def sortByKey : List (UploadedFile × Int) → List (UploadedFile × Int)
  | [] => []
  | x :: xs => insertByKey x (sortByKey xs)

/-- Files in the order the processing loops of mergePDFs and imageToPDF
traverse them. -/
def orderedFiles (files : List UploadedFile) (body : Nat → Option Int) : List UploadedFile :=
  (sortByKey (resolveOrders files body)).map Prod.fst

/-- Specification-side ordering, stated with Mathlib's stable
`List.insertionSort`: inputs sorted ascending by their supplied order
index, a file lacking a valid index taking its arrival position as index. -/
def specOrderedFiles (files : List UploadedFile) (body : Nat → Option Int) : List UploadedFile :=
  (List.insertionSort (fun a b => a.2 ≤ b.2) (resolveOrders files body)).map Prod.fst

/-! ## Merge handler (mergePDFs, src/controllers/pdfOperations.js:49-184) -/

/-- Result of the per-file processing loop: `failed` aborts the request
with the files read so far (`tempFiles`), `done` carries the accumulated
merged page list. -/
inductive MergeStep where
  | failed (temp : List String)
  | done (temp : List String) (pages : List Nat)
  deriving DecidableEq

/-- Per-file loop of mergePDFs (lines 79-121): reject a non-pdf mimetype
before reading the file, push the path onto tempFiles right after
`fsp.readFile`, then abort when `PDFDocument.load` throws or the document
has zero pages, else append its pages to the merged document. -/
def processMerge : List UploadedFile → List String → List Nat → MergeStep
  | [], temp, pages => .done temp pages
  | f :: rest, temp, pages =>
    if strIncludes "pdf" f.mimetype = false then .failed temp
    else
      match f.content with
      | none => .failed (temp ++ [f.path])
      | some ps =>
        if ps.length = 0 then .failed (temp ++ [f.path])
        else processMerge rest (temp ++ [f.path]) (pages ++ ps)

/-- Outcome of mergePDFs: status, the files unlinked before the response,
and the persisted merged artifact (name, page list) when one was written. -/
structure MergeOutcome where
  status : Nat
  deleted : List String
  output : Option (String × List Nat)
  deriving DecidableEq

/-- Embedding of mergePDFs: fewer than 2 files responds 400 with no
cleanup; a processing failure responds 500 after unlinking exactly the
tempFiles collected so far; success writes `merged-(now).pdf` and responds
200 without unlinking anything (the success path never deletes
tempFiles). -/
def mergePDFs (files : List UploadedFile) (body : Nat → Option Int) (now : Nat) : MergeOutcome :=
  if files.length < 2 then ⟨400, [], none⟩
  else
    match processMerge (orderedFiles files body) [] [] with
    | .failed temp => ⟨500, temp, none⟩
    | .done _ pages => ⟨200, [], some (mergedName now, pages)⟩

/-! ## Split handler (splitPDF, src/controllers/pdfOperations.js:187-307) -/

/-- Split output artifact name: backtick-template
`split-page-(i + 1)-(Date.now()).pdf`. -/
def splitName (pageNo now : Nat) : String :=
  "split-page-" ++ toString pageNo ++ "-" ++ toString now ++ ".pdf"

/-- Outcome of splitPDF: status, files unlinked before the response,
artifacts written and still on disk at response time (with their page
content), artifacts scheduled for the 1-hour deferred cleanup, and the
pageNumber list of the JSON response. -/
structure SplitOutcome where
  status : Nat
  deletedNow : List String
  written : List (String × List Nat)
  scheduled : List String
  pages : List Nat
  deriving DecidableEq

/-- Embedding of splitPDF.  `pageOk i` tells whether the per-page
copy/save/write of page i succeeds (failures are caught and skipped,
lines 263-266).  Branches: no file → 400; non-pdf mimetype → 400 with the
upload unlinked; load failure → 400 with the upload unlinked; at most one
page → 400 with the upload unlinked; zero successful pages → 500 with all
tempFiles (just the upload, no outputs were kept) unlinked; otherwise 200,
nothing unlinked now, upload and outputs scheduled for deletion in 1 hour. -/
def splitPDF (file : Option UploadedFile) (pageOk : Nat → Bool) (now : Nat) : SplitOutcome :=
  match file with
  | none => ⟨400, [], [], [], []⟩
  | some f =>
    if strIncludes "pdf" f.mimetype = false then ⟨400, [f.path], [], [], []⟩
    else
      match f.content with
      | none => ⟨400, [f.path], [], [], []⟩
      | some ps =>
        if ps.length ≤ 1 then ⟨400, [f.path], [], [], []⟩
        else
          let okIdx := (List.range ps.length).filter pageOk
          let outs := okIdx.map (fun i => (splitName (i + 1) now, (ps.drop i).take 1))
          if okIdx.length = 0 then ⟨500, [f.path], [], [], []⟩
          else ⟨200, [], outs, f.path :: outs.map Prod.fst, okIdx.map (fun i => i + 1)⟩

/-! ## Image-to-PDF handler (imageToPDF, src/controllers/pdfOperations.js:632-860) -/

/-- Page dimension switch of imageToPDF (lines 672-704): keyword table in
points with a4 as the default case, then
`if (orientation.toLowerCase() === 'landscape') swap`. -/
def pageDims (pageSize orientation : String) : Nat × Nat :=
  let low := lowStr pageSize
  let wh : Nat × Nat :=
    if low = "a4" then (595, 842)
    else if low = "letter" then (612, 792)
    else if low = "legal" then (612, 1008)
    else if low = "a3" then (842, 1191)
    else if low = "a5" then (420, 595)
    else (595, 842)
  if lowStr orientation = "landscape" then (wh.2, wh.1) else wh

/-- Specification-side dimension table, written as the spec states it: a
lookup table for a4, letter, legal, a3, a5 with a4 the default for
unrecognized keywords, width and height swapped exactly for landscape. -/
def sizeTable : List (String × (Nat × Nat)) :=
  [("a4", (595, 842)), ("letter", (612, 792)), ("legal", (612, 1008)),
   ("a3", (842, 1191)), ("a5", (420, 595))]

/-- Specification-side page dimensions. -/
def specPageDims (pageSize orientation : String) : Nat × Nat :=
  let wh := (sizeTable.lookup (lowStr pageSize)).getD (595, 842)
  if lowStr orientation = "landscape" then (wh.2, wh.1) else wh

/-- Image-to-pdf output artifact name: backtick-template
`image-pdf-(Date.now()).pdf`. -/
def imagePdfName (now : Nat) : String := "image-pdf-" ++ toString now ++ ".pdf"

/-- Outcome of imageToPDF: status, files unlinked before the response, the
written artifact with its pages (each page records the embedded image's
source path — `none` for a blank page whose embed step threw — and the
page width/height in points), and the `details.totalPages` and
`details.fileCount` response fields. -/
structure ImgOutcome where
  status : Nat
  deleted : List String
  output : Option (String × List (Option String × Nat × Nat))
  totalPages : Nat
  fileCount : Nat
  deriving DecidableEq

/-- Embedding of imageToPDF: no files → 400; any mimetype not starting
with `image/` → 400 after unlinking every upload; otherwise resolve page
settings and ordering and run the per-image try block (lines 727-784) on
each file in order.  Inside that block `sharp(...).metadata()` (line 732)
can throw, in which case the file is skipped entirely; when it succeeds,
`tempFiles.push` (line 735) and `pdfDoc.addPage` (line 738) run before the
fallible `pdfDoc.image` (line 766), so a file whose embed step throws has
already contributed a blank page and is still on tempFiles, while
`imageDetails.push` (line 772) runs only after a successful embed.  The
per-image catch (lines 780-783) swallows either throw and continues.  The
output PDF is always written, exactly the tempFiles (metadata-successful
uploads) are unlinked, and the 200 response reports
`totalPages = imageDetails.length`. -/
def imageToPDF (files : List UploadedFile) (body : Nat → Option Int)
    (pageSize orientation : Option String) (now : Nat) : ImgOutcome :=
  if files.length = 0 then ⟨400, [], none, 0, 0⟩
  else if files.any (fun f => strLeads "image/" f.mimetype = false) then
    ⟨400, files.map (fun f => f.path), none, 0, 0⟩
  else
    let wh := pageDims (pageSize.getD "a4") (orientation.getD "portrait")
    let good := (orderedFiles files body).filter (fun f => f.imgMeta.isSome)
    let pages := good.map (fun f =>
      ((if f.embedOk then some f.path else none), wh.1, wh.2))
    ⟨200, good.map (fun f => f.path), some (imagePdfName now, pages),
      (good.filter (fun f => f.embedOk)).length, files.length⟩

/-! ## Compress handler (compressPDF, src/controllers/pdfOperations.js:381-629) -/

/-- JavaScript `Math.round(n / 1024)` on a byte count (the code reports
sizes in KB this way). -/
def roundKB (n : Nat) : Nat := (n + 512) / 1024

/-- JavaScript `Math.round((1 - fin / orig) * 100)`: floor of the rational
plus one half, computed with integer floor division. -/
def jsRatio (orig fin : Nat) : Int :=
  Int.fdiv (200 * ((orig : Int) - fin) + orig) (2 * orig)

/-- Outcome of compressPDF along its main path: reported sizes in KB and
clamped ratio, whether the zlib pass output was adopted, the final bytes of
the compressed artifact and the bytes after the pdf-lib pass. -/
structure CompressOutcome where
  originalSize : Nat
  compressedSize : Nat
  ratio : Int
  adoptedZlib : Bool
  finalBytes : List Nat
  afterLibBytes : List Nat
  deriving DecidableEq

/-- Output-file bytes after the pdf-lib pass: `orig` is the uploaded
bytes, first duplicated to the output path; `libOut` is what
`pdfDoc.save(compressionOptions)` produces (`none` when pdf-lib throws, in
which case the plain copy is kept); the pdf-lib result replaces the copy
only when strictly smaller (lines 461-466). -/
def libResult (orig : List Nat) (libOut : Option (List Nat)) : List Nat :=
  match libOut with
  | some b => if b.length < orig.length then b else orig
  | none => orig

/-- Embedding of the main path of compressPDF.  For
`compressionLevel === 'high'` the current output file is deflated with
zlib (`deflate current` being the deflated stream); when the deflated
stream is smaller than 0.9 times the current file, the output file becomes
the first 1024 bytes of the current file followed by the deflated stream
(lines 505-526, `currentBytes.slice(0, 1024)` concatenated with the
deflated data).  The response reports `Math.round(size/1024)` KB figures
and `Math.max(0, Math.round((1 - compressed/original) * 100))`, and the
original upload is unlinked before the response. -/
def compressPDF (orig : List Nat) (level : String) (libOut : Option (List Nat))
    (deflate : List Nat → List Nat) : CompressOutcome :=
  let current := libResult orig libOut
  let deflated := deflate current
  if level = "high" ∧ 10 * deflated.length < 9 * current.length then
    ⟨roundKB orig.length, roundKB (current.take 1024 ++ deflated).length,
      max 0 (jsRatio orig.length (current.take 1024 ++ deflated).length), true,
      current.take 1024 ++ deflated, current⟩
  else
    ⟨roundKB orig.length, roundKB current.length,
      max 0 (jsRatio orig.length current.length), false, current, current⟩

/-! ## Helper lemmas -/

/-- String append acts as append on the underlying character lists. -/
theorem string_data_append (a b : String) : (a ++ b).data = a.data ++ b.data := by
  cases a; cases b; rfl

/-- Strings with equal character lists are equal. -/
theorem string_eq_of_data (s t : String) (h : s.data = t.data) : s = t := by
  cases s; cases t; simp_all

/-! ## C1 -/

/-- C1 (code_bug): the claim says a download reference pointing outside
the store root never yields a file outside the root.  The relative branch
of `downloadFile` joins the reference to the root with no traversal check,
so with store root `/app/src/uploads` the URL-decoded reference
`../../../etc/passwd` resolves to `/etc/passwd`; when that file is
readable it is streamed, a file outside the root. -/
theorem C1_relative_traversal_escapes_root :
    servedFile ⟨true, ["app", "src", "uploads"]⟩
        (fun p => decide (p = ⟨true, ["etc", "passwd"]⟩)) []
        ⟨false, ["..", "..", "..", "etc", "passwd"]⟩ =
      some ⟨true, ["etc", "passwd"]⟩ ∧
    insideRoot ⟨true, ["app", "src", "uploads"]⟩ ⟨true, ["etc", "passwd"]⟩ = false := by
  decide

/-! ## C4 -/

/-- C4 (code_bug): the claim says listing merged PDFs responds 200 with
one entry per `merged-*.pdf` file.  The handler awaits the callback-style
`fs.readdir` with no callback, which throws synchronously, so every
request lands in the catch block and responds 500 with an empty body,
whatever the upload directory contains. -/
theorem C4_listing_always_500 :
    ∀ dirFiles : List String, listMergedPDFs dirFiles = ⟨500, []⟩ :=
  fun _ => rfl

/-! ## C6 -/

/-- C6 counterexample: two distinct uploaded parts (different original
names) of one multi-file upload share the field name `pdfs`; stored in the
same millisecond 1700 with the same `.pdf` extension they receive the very
same storage name, so the naming scheme does collide. -/
theorem C6_counterexample :
    storageFilename "pdfs" 1700 "a.pdf" = storageFilename "pdfs" 1700 "b.pdf" ∧
    ("a.pdf" : String) ≠ "b.pdf" := by
  refine ⟨?_, by decide⟩
  show "pdfs" ++ "-" ++ toString 1700 ++ extname "a.pdf" =
    "pdfs" ++ "-" ++ toString 1700 ++ extname "b.pdf"
  rw [show extname "a.pdf" = ".pdf" from by decide,
    show extname "b.pdf" = ".pdf" from by decide]

/-- C6 (amended): with the same field name and the same millisecond
timestamp, two parts receive the same storage name exactly when their
original names have the same extension (so a multi-file upload collides
within one millisecond); two generated outputs of the same operation
collide exactly when their millisecond timestamps print alike. -/
theorem C6_amended_name_collisions :
    (∀ (fld : String) (t : Nat) (o1 o2 : String),
        storageFilename fld t o1 = storageFilename fld t o2 ↔ extname o1 = extname o2) ∧
    (∀ t1 t2 : Nat, mergedName t1 = mergedName t2 ↔ (toString t1 : String) = toString t2) := by
  constructor
  · intro fld t o1 o2
    constructor
    · intro h
      have hd := congrArg String.data h
      simp only [storageFilename, string_data_append] at hd
      exact string_eq_of_data _ _ (List.append_cancel_left hd)
    · intro h
      simp [storageFilename, h]
  · intro t1 t2
    constructor
    · intro h
      have hd := congrArg String.data h
      simp only [mergedName, string_data_append] at hd
      exact string_eq_of_data _ _
        (List.append_cancel_left (List.append_cancel_right hd))
    · intro h
      simp [mergedName, h]

/-! ## C9 -/

/-- C9 (confirmed): the generated page dimensions agree with the fixed
spec table (a4 default, swap exactly for landscape); in particular letter
with landscape yields 792 by 612 point pages. -/
theorem C9_page_dimension_table :
    (∀ s o : String, pageDims s o = specPageDims s o) ∧
    pageDims "letter" "landscape" = (792, 612) := by
  refine ⟨?_, by decide⟩
  intro s o
  by_cases h1 : lowStr s = "a4"
  · simp [pageDims, specPageDims, sizeTable, List.lookup, h1]
  · by_cases h2 : lowStr s = "letter"
    · simp [pageDims, specPageDims, sizeTable, List.lookup, h1, h2]
    · by_cases h3 : lowStr s = "legal"
      · simp [pageDims, specPageDims, sizeTable, List.lookup, h1, h2, h3]
      · by_cases h4 : lowStr s = "a3"
        · simp [pageDims, specPageDims, sizeTable, List.lookup, h1, h2, h3, h4]
        · by_cases h5 : lowStr s = "a5"
          · simp [pageDims, specPageDims, sizeTable, List.lookup, h1, h2, h3, h4, h5]
          · have e1 : (lowStr s == "a4") = false := beq_eq_false_iff_ne.mpr h1
            have e2 : (lowStr s == "letter") = false := beq_eq_false_iff_ne.mpr h2
            have e3 : (lowStr s == "legal") = false := beq_eq_false_iff_ne.mpr h3
            have e4 : (lowStr s == "a3") = false := beq_eq_false_iff_ne.mpr h4
            have e5 : (lowStr s == "a5") = false := beq_eq_false_iff_ne.mpr h5
            simp [pageDims, specPageDims, sizeTable, List.lookup, h1, h2, h3, h4, h5,
              e1, e2, e3, e4, e5]

/-! ## Sorting bridge and membership lemmas -/

/-- The stable insertion used by the embedding coincides with Mathlib's
`List.orderedInsert` on the order key. -/
theorem insertByKey_eq_orderedInsert (x : UploadedFile × Int)
    (l : List (UploadedFile × Int)) :
    insertByKey x l = List.orderedInsert (fun a b => a.2 ≤ b.2) x l := by
  induction l with
  | nil => rfl
  | cons y ys ih => simp [insertByKey, List.orderedInsert, ih]

/-- The embedded stable sort coincides with Mathlib's `List.insertionSort`. -/
theorem sortByKey_eq_insertionSort (l : List (UploadedFile × Int)) :
    sortByKey l = List.insertionSort (fun a b => a.2 ≤ b.2) l := by
  induction l with
  | nil => rfl
  | cons x xs ih => simp [sortByKey, List.insertionSort, insertByKey_eq_orderedInsert, ih]

/-- The processing order of the code equals the specification-side order. -/
theorem orderedFiles_eq_spec (files : List UploadedFile) (body : Nat → Option Int) :
    orderedFiles files body = specOrderedFiles files body := by
  simp [orderedFiles, specOrderedFiles, sortByKey_eq_insertionSort]

/-- Membership through stable insertion. -/
theorem mem_insertByKey (x y : UploadedFile × Int) (l : List (UploadedFile × Int)) :
    y ∈ insertByKey x l ↔ y = x ∨ y ∈ l := by
  induction l with
  | nil => simp [insertByKey]
  | cons z zs ih =>
    by_cases h : x.2 ≤ z.2
    · simp [insertByKey, h]
    · simp [insertByKey, h, ih]
      tauto

/-- Sorting does not change membership. -/
theorem mem_sortByKey (y : UploadedFile × Int) (l : List (UploadedFile × Int)) :
    y ∈ sortByKey l ↔ y ∈ l := by
  induction l with
  | nil => rfl
  | cons x xs ih => simp [sortByKey, mem_insertByKey, ih]

/-- A pair produced by order resolution carries one of the request files. -/
theorem mem_resolveOrdersAux (body : Nat → Option Int) (p : UploadedFile × Int) :
    ∀ (i : Nat) (fs : List UploadedFile), p ∈ resolveOrdersAux body i fs → p.1 ∈ fs := by
  intro i fs
  induction fs generalizing i with
  | nil => simp [resolveOrdersAux]
  | cons f rest ih =>
    intro h
    simp only [resolveOrdersAux, List.mem_cons] at h
    rcases h with h | h
    · simp [h]
    · exact List.mem_cons_of_mem _ (ih _ h)

/-- Every file traversed by the processing loop is one of the request files. -/
theorem mem_orderedFiles (f : UploadedFile) (files : List UploadedFile)
    (body : Nat → Option Int) (h : f ∈ orderedFiles files body) : f ∈ files := by
  simp only [orderedFiles, List.mem_map] at h
  rcases h with ⟨p, hp, hpf⟩
  have := mem_resolveOrdersAux body p 0 files ((mem_sortByKey p _).mp hp)
  simpa [hpf] using this

/-- Every file of the specification-side order is one of the request files. -/
theorem mem_specOrderedFiles (f : UploadedFile) (files : List UploadedFile)
    (body : Nat → Option Int) (h : f ∈ specOrderedFiles files body) : f ∈ files :=
  mem_orderedFiles f files body (by rw [orderedFiles_eq_spec]; exact h)

/-! ## Merge loop lemmas -/

/-- A file the merge loop accepts: pdf mimetype, loadable, at least one page. -/
def goodPdfB (f : UploadedFile) : Bool :=
  strIncludes "pdf" f.mimetype &&
    (match f.content with
     | some (_ :: _) => true
     | _ => false)

/-- When the merge loop finishes, the merged page list is the concatenation
of the page lists of the traversed files, in traversal order. -/
theorem processMerge_done (fs : List UploadedFile) :
    ∀ (temp t : List String) (acc p : List Nat),
      processMerge fs temp acc = .done t p →
      p = acc ++ fs.flatMap (fun f => f.content.getD []) := by
  induction fs with
  | nil =>
    intro temp t acc p h
    simp only [processMerge, MergeStep.done.injEq] at h
    simp [h.2.symm]
  | cons f rest ih =>
    intro temp t acc p h
    simp only [processMerge] at h
    by_cases hm : strIncludes "pdf" f.mimetype = false
    · simp [hm] at h
    · rw [if_neg hm] at h
      cases hc : f.content with
      | none => rw [hc] at h; exact absurd h (by simp)
      | some ps =>
        rw [hc] at h
        dsimp only at h
        by_cases hz : ps.length = 0
        · rw [if_pos hz] at h; exact absurd h (by simp)
        · rw [if_neg hz] at h
          have := ih _ _ _ _ h
          simp [this, hc]

/-- When the traversal order decomposes as good files, then a failing file,
the loop aborts and the tempFiles list holds exactly the paths of the good
files plus, when the failing file passed the mimetype test (and so was
read), its own path. -/
theorem processMerge_fail (pre : List UploadedFile) (bad : UploadedFile)
    (suf : List UploadedFile) :
    ∀ (temp : List String) (pages : List Nat),
      (∀ f ∈ pre, goodPdfB f = true) → goodPdfB bad = false →
      processMerge (pre ++ bad :: suf) temp pages =
        .failed (temp ++ pre.map (fun f => f.path) ++
          (if strIncludes "pdf" bad.mimetype then [bad.path] else [])) := by
  induction pre with
  | nil =>
    intro temp pages _ hbad
    simp only [List.nil_append, List.map_nil]
    by_cases hm : strIncludes "pdf" bad.mimetype = false
    · simp [processMerge, hm]
    · have hmt : strIncludes "pdf" bad.mimetype = true := by
        cases h : strIncludes "pdf" bad.mimetype
        · exact absurd h hm
        · rfl
      cases hc : bad.content with
      | none => simp [processMerge, hm, hc, hmt]
      | some ps =>
        cases ps with
        | nil => simp [processMerge, hm, hc, hmt]
        | cons q qs =>
          exfalso
          have : goodPdfB bad = true := by simp [goodPdfB, hmt, hc]
          simp [this] at hbad
  | cons g pretl ih =>
    intro temp pages hpre hbad
    have hg : goodPdfB g = true := hpre g (List.mem_cons_self g pretl)
    have hgm : strIncludes "pdf" g.mimetype = true := by
      cases hk : strIncludes "pdf" g.mimetype
      · simp [goodPdfB, hk] at hg
      · rfl
    have hgc : ∃ q qs, g.content = some (q :: qs) := by
      cases hc : g.content with
      | none => simp [goodPdfB, hc] at hg
      | some ps =>
        cases ps with
        | nil => simp [goodPdfB, hc] at hg
        | cons q qs => exact ⟨q, qs, rfl⟩
    rcases hgc with ⟨q, qs, hc⟩
    show processMerge (g :: (pretl ++ bad :: suf)) temp pages = _
    simp only [processMerge, hgm, hc]
    rw [if_neg (by simp), if_neg (by simp)]
    rw [ih (temp ++ [g.path]) (pages ++ (q :: qs))
      (fun f hf => hpre f (List.mem_cons_of_mem g hf)) hbad]
    simp

/-! ## Sample request data used by the concrete theorems -/

/-- A corrupt uploaded pdf: declared pdf mimetype, loading throws. -/
def corruptPdfA : UploadedFile :=
  ⟨"/uploads/pdfs-1.pdf", "a.pdf", "application/pdf", none, none, false⟩

/-- A valid uploaded pdf with two pages. -/
def validPdfB : UploadedFile :=
  ⟨"/uploads/pdfs-2.pdf", "b.pdf", "application/pdf", some [7, 8], none, false⟩

/-! ## C2 -/

/-- C2 counterexample: merging a corrupt pdf (first in resolved order) with
a valid one responds 500 with no merged output, but only the corrupt file's
path is unlinked; the valid upload, never reached by the loop, is not
removed before the response, contradicting the claim that every uploaded
temporary input file is removed. -/
theorem C2_counterexample :
    mergePDFs [corruptPdfA, validPdfB] (fun _ => none) 5 =
      ⟨500, ["/uploads/pdfs-1.pdf"], none⟩ ∧
    validPdfB.path ∉ (mergePDFs [corruptPdfA, validPdfB] (fun _ => none) 5).deleted := by
  decide

/-- C2 (amended): when at least one input fails to load or has zero pages,
the request responds 500 and no merged output is persisted, and the files
unlinked before the response are exactly the inputs read up to and
including the first failing file in resolved order (the failing file
itself only when it passed the mimetype check); inputs after the failing
one are not removed. -/
theorem C2_amended_failure_cleanup :
    ∀ (files : List UploadedFile) (body : Nat → Option Int) (now : Nat)
      (pre : List UploadedFile) (bad : UploadedFile) (suf : List UploadedFile),
      2 ≤ files.length →
      orderedFiles files body = pre ++ bad :: suf →
      (∀ f ∈ pre, goodPdfB f = true) →
      goodPdfB bad = false →
      mergePDFs files body now =
        ⟨500, pre.map (fun f => f.path) ++
          (if strIncludes "pdf" bad.mimetype then [bad.path] else []), none⟩ := by
  intro files body now pre bad suf h2 hord hpre hbad
  unfold mergePDFs
  rw [if_neg (by omega), hord, processMerge_fail pre bad suf [] [] hpre hbad]
  simp

/-- C2 witness: the amended theorem applied to the concrete corrupt-first
request. -/
theorem C2_amended_witness :
    mergePDFs [corruptPdfA, validPdfB] (fun _ => none) 6 =
      ⟨500, ["/uploads/pdfs-1.pdf"], none⟩ := by
  have h := C2_amended_failure_cleanup [corruptPdfA, validPdfB] (fun _ => none) 6
    [] corruptPdfA [validPdfB] (by decide) (by decide) (by decide) (by decide)
  rw [h]
  decide

/-! ## C3 -/

/-- Case analysis of splitPDF on a present upload: every outcome is a 400
or 500 response that unlinks exactly the upload, or a 200 response that
unlinks nothing now and schedules the upload together with the written
artifacts. -/
theorem splitPDF_cases (f : UploadedFile) (pageOk : Nat → Bool) (now : Nat) :
    splitPDF (some f) pageOk now = ⟨400, [f.path], [], [], []⟩ ∨
    splitPDF (some f) pageOk now = ⟨500, [f.path], [], [], []⟩ ∨
    ((splitPDF (some f) pageOk now).status = 200 ∧
      (splitPDF (some f) pageOk now).deletedNow = [] ∧
      (splitPDF (some f) pageOk now).scheduled =
        f.path :: (splitPDF (some f) pageOk now).written.map Prod.fst) := by
  unfold splitPDF
  dsimp only
  by_cases hm : strIncludes "pdf" f.mimetype = false
  · left; simp [hm]
  · rw [if_neg hm]
    cases hc : f.content with
    | none => left; rfl
    | some ps =>
      dsimp only
      by_cases hl : ps.length ≤ 1
      · left; simp [hl]
      · rw [if_neg hl]
        by_cases hz : ((List.range ps.length).filter pageOk).length = 0
        · right; left; simp [hz]
        · right; right; simp [hz]

/-- C3 counterexample: a merge request carrying one uploaded file (its
storage path known) is rejected with 400, but the upload is not deleted
before the response, contradicting the claimed universal synchronous
cleanup. -/
theorem C3_counterexample :
    mergePDFs [validPdfB] (fun _ => none) 7 = ⟨400, [], none⟩ ∧
    validPdfB.path ∉ (mergePDFs [validPdfB] (fun _ => none) 7).deleted := by
  decide

/-- C3 (amended): synchronous input cleanup holds on the rejection and
failure paths that reach per-file processing, with these exceptions: the
merge too-few-files 400 rejection deletes nothing (the uploaded file is
left behind); a merge processing failure deletes only the inputs already
read; the split success path defers the upload's deletion to the 1-hour
timer instead of deleting it before the response; the image-to-pdf success
path deletes exactly the inputs whose sharp metadata step succeeded —
including inputs whose later image-embed step failed, which are deleted
even though their per-image step failed — while inputs that failed at the
metadata step are left behind.  Concretely: split deletes its upload on
every non-200 path and schedules it on the 200 path; merge with fewer than
two files deletes nothing; image-to-pdf on its 200 path deletes exactly
the metadata-successful uploads, independently of the embed step. -/
theorem C3_amended_cleanup :
    (∀ (files : List UploadedFile) (body : Nat → Option Int) (now : Nat),
        files.length < 2 → mergePDFs files body now = ⟨400, [], none⟩) ∧
    (∀ (f : UploadedFile) (pageOk : Nat → Bool) (now : Nat),
        (splitPDF (some f) pageOk now).status ≠ 200 →
          f.path ∈ (splitPDF (some f) pageOk now).deletedNow) ∧
    (∀ (f : UploadedFile) (pageOk : Nat → Bool) (now : Nat),
        (splitPDF (some f) pageOk now).status = 200 →
          (splitPDF (some f) pageOk now).deletedNow = [] ∧
          f.path ∈ (splitPDF (some f) pageOk now).scheduled) ∧
    (∀ (files : List UploadedFile) (body : Nat → Option Int)
        (psz ori : Option String) (now : Nat),
        (imageToPDF files body psz ori now).status = 200 →
          (imageToPDF files body psz ori now).deleted =
            ((orderedFiles files body).filter (fun f => f.imgMeta.isSome)).map
              (fun f => f.path)) := by
  refine ⟨?_, ?_, ?_, ?_⟩
  · intro files body now h
    unfold mergePDFs
    rw [if_pos h]
  · intro f pageOk now h
    rcases splitPDF_cases f pageOk now with hc | hc | hc
    · rw [hc]; exact List.mem_singleton.mpr rfl
    · rw [hc]; exact List.mem_singleton.mpr rfl
    · exact absurd hc.1 h
  · intro f pageOk now h
    rcases splitPDF_cases f pageOk now with hc | hc | hc
    · rw [hc] at h; simp at h
    · rw [hc] at h; simp at h
    · exact ⟨hc.2.1, by rw [hc.2.2]; exact List.mem_cons_self _ _⟩
  · intro files body psz ori now h
    unfold imageToPDF at h ⊢
    by_cases h0 : files.length = 0
    · rw [if_pos h0] at h; simp at h
    · rw [if_neg h0] at h ⊢
      by_cases h1 : files.any (fun f => strLeads "image/" f.mimetype = false)
      · rw [if_pos h1] at h; simp at h
      · rw [if_neg h1]

/-- C3 witness: the amended theorem applied to a concrete one-file merge
request. -/
theorem C3_amended_witness :
    mergePDFs [validPdfB] (fun _ => none) 3 = ⟨400, [], none⟩ :=
  C3_amended_cleanup.1 [validPdfB] (fun _ => none) 3 (by decide)

/-! ## C7 -/

/-- C7 (confirmed): a successful merge output concatenates the input page
lists in the order given by the stable ascending sort on the supplied
order indices (arrival position for a missing or invalid index); a
successful image-to-pdf conversion with all images processing places its
pages in that same order.  Upload order enters only as the tie-break and
fallback. -/
theorem C7_output_order_by_index :
    (∀ (files : List UploadedFile) (body : Nat → Option Int) (now : Nat)
        (nm : String) (pages : List Nat),
        (mergePDFs files body now).output = some (nm, pages) →
        pages = (specOrderedFiles files body).flatMap (fun f => f.content.getD [])) ∧
    (∀ (files : List UploadedFile) (body : Nat → Option Int)
        (psz ori : Option String) (now : Nat),
        files ≠ [] →
        (∀ f ∈ files, strLeads "image/" f.mimetype = true) →
        (∀ f ∈ files, f.imgMeta.isSome = true) →
        (∀ f ∈ files, f.embedOk = true) →
        (imageToPDF files body psz ori now).output =
          some (imagePdfName now,
            (specOrderedFiles files body).map (fun f =>
              (some f.path, (pageDims (psz.getD "a4") (ori.getD "portrait")).1,
                (pageDims (psz.getD "a4") (ori.getD "portrait")).2)))) := by
  constructor
  · intro files body now nm pages h
    unfold mergePDFs at h
    by_cases h2 : files.length < 2
    · rw [if_pos h2] at h; simp at h
    · rw [if_neg h2] at h
      cases hp : processMerge (orderedFiles files body) [] [] with
      | failed temp => rw [hp] at h; simp at h
      | done t p =>
        rw [hp] at h
        simp only [Option.some.injEq, Prod.mk.injEq] at h
        rw [← h.2, ← orderedFiles_eq_spec]
        simpa using processMerge_done _ _ _ _ _ hp
  · intro files body psz ori now hne hmime hok hemb
    have hany : files.any (fun f => strLeads "image/" f.mimetype = false) = false := by
      rw [List.any_eq_false]
      intro f hf
      simp [hmime f hf]
    have hfilter : (orderedFiles files body).filter (fun f => f.imgMeta.isSome) =
        orderedFiles files body :=
      List.filter_eq_self.mpr (fun f hf => hok f (mem_orderedFiles f files body hf))
    rw [orderedFiles_eq_spec] at hfilter
    have hmap : (specOrderedFiles files body).map
        (fun f => ((if f.embedOk then some f.path else none : Option String),
          (pageDims (psz.getD "a4") (ori.getD "portrait")).1,
          (pageDims (psz.getD "a4") (ori.getD "portrait")).2)) =
      (specOrderedFiles files body).map
        (fun f => ((some f.path : Option String),
          (pageDims (psz.getD "a4") (ori.getD "portrait")).1,
          (pageDims (psz.getD "a4") (ori.getD "portrait")).2)) := by
      apply List.map_congr_left
      intro f hf
      rw [if_pos (hemb f (mem_specOrderedFiles f files body hf))]
    unfold imageToPDF
    rw [if_neg (by simpa [List.length_eq_zero] using hne),
      if_neg (by rw [hany]; simp)]
    simp only [orderedFiles_eq_spec]
    rw [hfilter, hmap]

/-- Sample files for the order witness: arrival order c0, c1, c2 with
supplied order indices 2, 0, 1. -/
def pdfC0 : UploadedFile :=
  ⟨"/uploads/pdfs-10.pdf", "c0.pdf", "application/pdf", some [100], none, false⟩

/-- Second sample file. -/
def pdfC1 : UploadedFile :=
  ⟨"/uploads/pdfs-11.pdf", "c1.pdf", "application/pdf", some [101], none, false⟩

/-- Third sample file. -/
def pdfC2 : UploadedFile :=
  ⟨"/uploads/pdfs-12.pdf", "c2.pdf", "application/pdf", some [102], none, false⟩

/-- Form body supplying order indices 2, 0, 1 for arrival positions 0, 1, 2. -/
def orderBody : Nat → Option Int :=
  fun i => if i = 0 then some 2 else if i = 1 then some 0 else if i = 2 then some 1 else none

/-- C7 witness: merging the three sample files with indices 2, 0, 1 yields
the page sequence of c1, c2, c0, the sorted-by-index order. -/
theorem C7_witness :
    [101, 102, 100] =
      (specOrderedFiles [pdfC0, pdfC1, pdfC2] orderBody).flatMap
        (fun f => f.content.getD []) :=
  C7_output_order_by_index.1 [pdfC0, pdfC1, pdfC2] orderBody 9 (mergedName 9)
    [101, 102, 100] (by decide)

/-! ## C8 -/

/-- C8 (confirmed): on a pdf upload, split rejects a document of at most
one page with 400, unlinking the upload and creating no output artifact;
with more than one page and every per-page step succeeding it responds 200
with one single-page output document per input page; when zero pages
succeed it responds 500 with all temporary files (the upload; no outputs
were kept) removed; when a non-empty subset of pages succeeds it responds
200 with exactly those page numbers. -/
theorem C8_split_behaviour :
    ∀ (f : UploadedFile) (pageOk : Nat → Bool) (now : Nat) (ps : List Nat),
      strIncludes "pdf" f.mimetype = true →
      f.content = some ps →
      ((ps.length ≤ 1 →
          splitPDF (some f) pageOk now = ⟨400, [f.path], [], [], []⟩) ∧
       (1 < ps.length → (∀ i, i < ps.length → pageOk i = true) →
          (splitPDF (some f) pageOk now).status = 200 ∧
          (splitPDF (some f) pageOk now).written.length = ps.length ∧
          (∀ w ∈ (splitPDF (some f) pageOk now).written, w.2.length = 1)) ∧
       (1 < ps.length → (∀ i, i < ps.length → pageOk i = false) →
          splitPDF (some f) pageOk now = ⟨500, [f.path], [], [], []⟩) ∧
       (1 < ps.length → (List.range ps.length).filter pageOk ≠ [] →
          (splitPDF (some f) pageOk now).status = 200 ∧
          (splitPDF (some f) pageOk now).pages =
            ((List.range ps.length).filter pageOk).map (fun i => i + 1))) := by
  intro f pageOk now ps hm hc
  refine ⟨?_, ?_, ?_, ?_⟩
  · intro hl
    simp [splitPDF, hm, hc, hl]
  · intro hl hall
    have hnl : ¬ ps.length ≤ 1 := by omega
    have hfil : (List.range ps.length).filter pageOk = List.range ps.length :=
      List.filter_eq_self.mpr (fun i hi => hall i (List.mem_range.mp hi))
    have hlen0 : ¬ ((List.range ps.length).filter pageOk).length = 0 := by
      rw [hfil, List.length_range]; omega
    have hs : splitPDF (some f) pageOk now =
        ⟨200, [],
          ((List.range ps.length).filter pageOk).map
            (fun i => (splitName (i + 1) now, (ps.drop i).take 1)),
          f.path :: (((List.range ps.length).filter pageOk).map
            (fun i => (splitName (i + 1) now, (ps.drop i).take 1))).map Prod.fst,
          ((List.range ps.length).filter pageOk).map (fun i => i + 1)⟩ := by
      simp [splitPDF, hm, hc, hnl, hlen0]
    refine ⟨by rw [hs], ?_, ?_⟩
    · rw [hs]
      simp [hfil]
    · intro w hw
      rw [hs] at hw
      simp only [List.mem_map] at hw
      rcases hw with ⟨i, hi, rfl⟩
      have hilt : i < ps.length := by
        rw [hfil] at hi
        exact List.mem_range.mp hi
      simp [List.length_take, List.length_drop]
      omega
  · intro hl hall
    have hnl : ¬ ps.length ≤ 1 := by omega
    have hfil0 : (List.range ps.length).filter pageOk = [] :=
      List.filter_eq_nil_iff.mpr
        (fun i hi => by simp [hall i (List.mem_range.mp hi)])
    simp [splitPDF, hm, hc, hnl, hfil0]
  · intro hl hne
    have hnl : ¬ ps.length ≤ 1 := by omega
    have hlen0 : ¬ ((List.range ps.length).filter pageOk).length = 0 := by
      intro h0
      exact hne (List.length_eq_zero.mp h0)
    constructor
    · simp [splitPDF, hm, hc, hnl, hlen0]
    · simp [splitPDF, hm, hc, hnl, hlen0]

/-- Sample two-page pdf upload for the split witness. -/
def twoPagePdf : UploadedFile :=
  ⟨"/uploads/pdf-3.pdf", "s.pdf", "application/pdf", some [5, 6], none, false⟩

/-- C8 witness: splitting the concrete two-page pdf with every page
succeeding responds 200 with two single-page artifacts. -/
theorem C8_witness :
    (splitPDF (some twoPagePdf) (fun _ => true) 11).status = 200 ∧
    (splitPDF (some twoPagePdf) (fun _ => true) 11).written.length = 2 ∧
    (∀ w ∈ (splitPDF (some twoPagePdf) (fun _ => true) 11).written, w.2.length = 1) := by
  have h := (C8_split_behaviour twoPagePdf (fun _ => true) 11 [5, 6]
    (by decide) (by decide)).2.1 (by decide) (fun i _ => rfl)
  exact h

/-! ## C10 -/

/-- Sample image upload whose sharp metadata step fails, so its per-image
step fails before any page is added. -/
def failedImg : UploadedFile :=
  ⟨"/uploads/images-1.png", "x.png", "image/png", none, none, false⟩

/-- Sample webp upload: sharp reads its metadata, but PDFKit cannot embed
webp, so `pdfDoc.image` throws after `pdfDoc.addPage` already ran — the
per-image step fails, yet a blank page was added. -/
def webpImg : UploadedFile :=
  ⟨"/uploads/images-2.webp", "y.webp", "image/webp", none, some (10, 10), false⟩

/-- C10 counterexample: a one-file request whose only upload is a webp
image — it passes the `image/` mimetype check and its per-image step fails
(PDFKit rejects webp) — still responds 200 with `totalPages = 0`, but the
written artifact has one blank page (the page was added before the embed
threw), not zero pages, refuting the claimed zero-page artifact. -/
theorem C10_counterexample :
    (imageToPDF [webpImg] (fun _ => none) none none 8).status = 200 ∧
    (imageToPDF [webpImg] (fun _ => none) none none 8).totalPages = 0 ∧
    (imageToPDF [webpImg] (fun _ => none) none none 8).output =
      some (imagePdfName 8, [(none, 595, 842)]) ∧
    (imageToPDF [webpImg] (fun _ => none) none none 8).output ≠
      some (imagePdfName 8, []) := by
  decide

/-- C10 (amended): when every upload of an image-to-pdf request passes the
image mimetype check but every per-image processing step fails, the
handler still responds 200, reports `details.totalPages = 0`, and writes a
pdf artifact to the store; the artifact contains one blank page for each
input whose metadata step succeeded before the image-embed step threw, so
it has zero pages exactly when every input already failed at the metadata
step. -/
theorem C10_amended_zero_success :
    ∀ (files : List UploadedFile) (body : Nat → Option Int)
      (psz ori : Option String) (now : Nat),
      files ≠ [] →
      (∀ f ∈ files, strLeads "image/" f.mimetype = true) →
      (∀ f ∈ files, f.imgMeta = none ∨ f.embedOk = false) →
      (imageToPDF files body psz ori now).status = 200 ∧
      (imageToPDF files body psz ori now).totalPages = 0 ∧
      (imageToPDF files body psz ori now).output =
        some (imagePdfName now,
          ((specOrderedFiles files body).filter (fun f => f.imgMeta.isSome)).map
            (fun _ => ((none : Option String),
              (pageDims (psz.getD "a4") (ori.getD "portrait")).1,
              (pageDims (psz.getD "a4") (ori.getD "portrait")).2))) := by
  intro files body psz ori now hne hmime hfail
  have hany : files.any (fun f => strLeads "image/" f.mimetype = false) = false := by
    rw [List.any_eq_false]
    intro f hf
    simp [hmime f hf]
  have hgood : ∀ f ∈ (orderedFiles files body).filter (fun g => g.imgMeta.isSome),
      f.embedOk = false := by
    intro f hf
    have hm := List.mem_filter.mp hf
    rcases hfail f (mem_orderedFiles f files body hm.1) with h | h
    · exfalso
      rw [h] at hm
      simp at hm
    · exact h
  have hcnt : ((orderedFiles files body).filter (fun g => g.imgMeta.isSome)).filter
      (fun f => f.embedOk) = [] :=
    List.filter_eq_nil_iff.mpr (fun f hf => by simp [hgood f hf])
  have hmap : ((orderedFiles files body).filter (fun g => g.imgMeta.isSome)).map
      (fun f => ((if f.embedOk then some f.path else none : Option String),
        (pageDims (psz.getD "a4") (ori.getD "portrait")).1,
        (pageDims (psz.getD "a4") (ori.getD "portrait")).2)) =
    ((orderedFiles files body).filter (fun g => g.imgMeta.isSome)).map
      (fun _ => ((none : Option String),
        (pageDims (psz.getD "a4") (ori.getD "portrait")).1,
        (pageDims (psz.getD "a4") (ori.getD "portrait")).2)) := by
    apply List.map_congr_left
    intro f hf
    rw [if_neg (by simp [hgood f hf])]
  unfold imageToPDF
  rw [if_neg (by simpa [List.length_eq_zero] using hne), if_neg (by rw [hany]; simp)]
  refine ⟨rfl, ?_, ?_⟩
  · dsimp only
    rw [hcnt]
    rfl
  · dsimp only
    rw [hmap, orderedFiles_eq_spec]

/-- C10 witness: the amended theorem applied to a one-image request whose
only image fails at the metadata step, giving a zero-page artifact. -/
theorem C10_amended_witness :
    (imageToPDF [failedImg] (fun _ => none) none none 4).status = 200 ∧
    (imageToPDF [failedImg] (fun _ => none) none none 4).totalPages = 0 ∧
    (imageToPDF [failedImg] (fun _ => none) none none 4).output =
      some (imagePdfName 4, []) := by
  have h := C10_amended_zero_success [failedImg] (fun _ => none) none none 4
    (by decide) (by decide) (by decide)
  refine ⟨h.1, h.2.1, ?_⟩
  rw [h.2.2]
  decide

/-! ## C5 -/

/-- The pdf-lib pass never enlarges the output file. -/
theorem libResult_length_le (orig : List Nat) (libOut : Option (List Nat)) :
    (libResult orig libOut).length ≤ orig.length := by
  unfold libResult
  cases libOut with
  | none => exact le_refl _
  | some b =>
    by_cases hb : b.length < orig.length
    · simpa [hb] using le_of_lt hb
    · simp [hb]

/-- C5 counterexample: a 2048-byte upload at level high whose pdf-lib pass
fails and whose 1800-byte deflated stream passes the 0.9 test yields a
2824-byte output (1024-byte header plus deflated stream); the response
reports originalSize 2 KB and compressedSize 3 KB, violating the claimed
`compressedSize ≤ originalSize`. -/
theorem C5_counterexample :
    (compressPDF (List.replicate 2048 37) "high" none
      (fun _ => List.replicate 1800 42)).originalSize = 2 ∧
    (compressPDF (List.replicate 2048 37) "high" none
      (fun _ => List.replicate 1800 42)).compressedSize = 3 ∧
    ¬ ((compressPDF (List.replicate 2048 37) "high" none
          (fun _ => List.replicate 1800 42)).compressedSize ≤
        (compressPDF (List.replicate 2048 37) "high" none
          (fun _ => List.replicate 1800 42)).originalSize) := by
  have hL : libResult (List.replicate 2048 (37 : Nat)) none = List.replicate 2048 37 := rfl
  have hcond : ("high" : String) = "high" ∧
      10 * ((fun (_ : List Nat) => List.replicate 1800 42)
        (libResult (List.replicate 2048 37) none)).length <
        9 * (libResult (List.replicate 2048 37) none).length := by
    refine ⟨rfl, ?_⟩
    simp only [hL, List.length_replicate]
    norm_num
  have he : compressPDF (List.replicate 2048 37) "high" none
      (fun _ => List.replicate 1800 42) =
      ⟨roundKB (List.replicate 2048 37).length,
        roundKB ((libResult (List.replicate 2048 37) none).take 1024 ++
          List.replicate 1800 42).length,
        max 0 (jsRatio (List.replicate 2048 37).length
          ((libResult (List.replicate 2048 37) none).take 1024 ++
            List.replicate 1800 42).length),
        true,
        (libResult (List.replicate 2048 37) none).take 1024 ++ List.replicate 1800 42,
        libResult (List.replicate 2048 37) none⟩ := by
    unfold compressPDF
    rw [if_pos hcond]
  have h1 : roundKB (List.replicate 2048 (37 : Nat)).length = 2 := by
    rw [List.length_replicate]
    unfold roundKB
    omega
  have h2 : roundKB ((libResult (List.replicate 2048 37) none).take 1024 ++
      List.replicate (1800 : Nat) (42 : Nat)).length = 3 := by
    rw [hL, List.length_append, List.length_take, List.length_replicate,
      List.length_replicate]
    unfold roundKB
    omega
  rw [he]
  refine ⟨h1, h2, ?_⟩
  show ¬ (roundKB _ ≤ roundKB _)
  rw [h1, h2]
  omega

/-- C5 (amended): the reported compressionRatio is never negative; when
the zlib pass output is not adopted the reported compressedSize is at most
the reported originalSize; when it is adopted, the level is high, the
deflated stream is more than 10 percent smaller than the current file, the
output is the unmodified 1024-byte leading header region followed by the
deflated stream (so the header region is preserved whenever the current
file has at least 1024 bytes), but the adopted output as a whole can
exceed the original, since the 10 percent test is applied to the deflated
stream before the header is prepended. -/
theorem C5_amended_compress :
    ∀ (orig : List Nat) (level : String) (libOut : Option (List Nat))
      (deflate : List Nat → List Nat),
      0 ≤ (compressPDF orig level libOut deflate).ratio ∧
      ((compressPDF orig level libOut deflate).adoptedZlib = false →
        (compressPDF orig level libOut deflate).compressedSize ≤
          (compressPDF orig level libOut deflate).originalSize) ∧
      ((compressPDF orig level libOut deflate).adoptedZlib = true →
        level = "high" ∧
        10 * (deflate (compressPDF orig level libOut deflate).afterLibBytes).length <
          9 * (compressPDF orig level libOut deflate).afterLibBytes.length ∧
        (compressPDF orig level libOut deflate).finalBytes =
          (compressPDF orig level libOut deflate).afterLibBytes.take 1024 ++
            deflate (compressPDF orig level libOut deflate).afterLibBytes ∧
        (1024 ≤ (compressPDF orig level libOut deflate).afterLibBytes.length →
          (compressPDF orig level libOut deflate).finalBytes.take 1024 =
            (compressPDF orig level libOut deflate).afterLibBytes.take 1024)) := by
  intro orig level libOut deflate
  by_cases hcond : level = "high" ∧
      10 * (deflate (libResult orig libOut)).length < 9 * (libResult orig libOut).length
  · have he : compressPDF orig level libOut deflate =
        ⟨roundKB orig.length,
          roundKB ((libResult orig libOut).take 1024 ++ deflate (libResult orig libOut)).length,
          max 0 (jsRatio orig.length
            ((libResult orig libOut).take 1024 ++ deflate (libResult orig libOut)).length),
          true,
          (libResult orig libOut).take 1024 ++ deflate (libResult orig libOut),
          libResult orig libOut⟩ := by
      unfold compressPDF
      rw [if_pos hcond]
    rw [he]
    refine ⟨le_max_left _ _, ?_, ?_⟩
    · intro h
      simp at h
    · intro _
      refine ⟨hcond.1, hcond.2, rfl, ?_⟩
      intro h1024
      dsimp only at h1024 ⊢
      rw [List.take_append_of_le_length (by rw [List.length_take]; omega),
        List.take_take, Nat.min_self]
  · have he : compressPDF orig level libOut deflate =
        ⟨roundKB orig.length, roundKB (libResult orig libOut).length,
          max 0 (jsRatio orig.length (libResult orig libOut).length),
          false, libResult orig libOut, libResult orig libOut⟩ := by
      unfold compressPDF
      rw [if_neg hcond]
    rw [he]
    refine ⟨le_max_left _ _, ?_, ?_⟩
    · intro _
      exact Nat.div_le_div_right
        (Nat.add_le_add_right (libResult_length_le orig libOut) 512)
    · intro h
      simp at h

/-- C5 witness: the amended theorem applied at two concrete inputs, one
where the zlib output is adopted (level high, tiny deflated stream) and
one where it is not (level low). -/
theorem C5_amended_witness :
    (compressPDF [1, 2, 3] "high" none (fun _ => [0])).finalBytes = [1, 2, 3, 0] ∧
    0 ≤ (compressPDF [1, 2, 3] "high" none (fun _ => [0])).ratio ∧
    (compressPDF [9, 9] "low" none (fun _ => [])).compressedSize ≤
      (compressPDF [9, 9] "low" none (fun _ => [])).originalSize := by
  have ha := C5_amended_compress [1, 2, 3] "high" none (fun _ => [0])
  have hb := C5_amended_compress [9, 9] "low" none (fun _ => [])
  refine ⟨?_, ha.1, hb.2.1 (by decide)⟩
  have h3 := ha.2.2 (by decide)
  rw [h3.2.2.1]
  decide

end DocHelper
